import Mathlib

/-!
Shallow embedding of the financial aggregation core of the ozon_dash
repository: the `useFinanceData` / `useFinanceBreakdown` hooks
(src/hooks/useFinanceData.ts) together with the earlier variant of the
same hooks kept in the repository.

Modelling conventions:
* Finance amounts are embedded as rationals (ℚ).  The JavaScript
  arithmetic on these amounts is addition, multiplication, absolute
  value, division and comparisons, which agree with exact rational
  arithmetic on the inputs considered here.
* Backend rows are embedded with their numeric fields already coerced by
  the external `toNumber` collaborator (null/absent/non-numeric ↦ 0), as
  the specification delegates numeric coercion to that collaborator.
* `operation_type_name` is a list of characters; `toLowerCase` is
  embedded for the ASCII range and the Cyrillic range actually used by
  the keyword tables.  A null name corresponds to the empty list, since
  the code replaces a missing name by the empty string before testing.
* The backend (Supabase) query results are passed in as explicit values;
  a failed query is an `Except.error`.
-/

namespace OzonDash

/-- Lower-casing of one character as done by JavaScript `toLowerCase`,
restricted to ASCII letters and the Cyrillic letters appearing in the
keyword tables (А..Я and Ё). -/
def lowerChar (c : Char) : Char :=
  if 65 ≤ c.toNat ∧ c.toNat ≤ 90 then Char.ofNat (c.toNat + 32)
  else if 1040 ≤ c.toNat ∧ c.toNat ≤ 1071 then Char.ofNat (c.toNat + 32)
  else if c.toNat = 1025 then Char.ofNat 1105
  else c

/-- Lower-casing of a whole operation-type name. -/
def lowerStr (s : List Char) : List Char := s.map lowerChar

/-- `listStarts pat s` is true when `pat` is a prefix of `s`
(character-wise equality). -/
def listStarts : List Char → List Char → Bool
  | [], _ => true
  | _ :: _, [] => false
  | p :: ps, c :: cs => p == c && listStarts ps cs

/-- `listHas pat s` is true when `pat` occurs as a contiguous substring
of `s`; this is JavaScript `String.prototype.includes`. -/
def listHas (pat : List Char) : List Char → Bool
  | [] => pat.isEmpty
  | c :: cs => listStarts pat (c :: cs) || listHas pat cs

/-- `incl s kw` embeds `s.includes(kw)` from the source, where `s` is an
already lower-cased operation-type name. -/
def incl (s : List Char) (pat : String) : Bool := listHas pat.toList s

/-- One row of the raw transaction-detail source (`vw_transaction_details`),
with numeric fields already passed through `toNumber` (so null ↦ 0). -/
structure RawRecord where
  accruals_for_sale : ℚ
  sale_commission : ℚ
  delivery_charge : ℚ
  return_delivery_charge : ℚ
  amount : ℚ
  operation_type_name : List Char
  operation_date_msk : Nat
  posting_number : String
deriving DecidableEq

/-- The keyword test of the sales text rule:
`операция.includes('продаж') || ... || includes('payment')`. -/
def salesKw (op : List Char) : Bool :=
  incl op "продаж" || incl op "sale" || incl op "оплат" || incl op "payment"

/-- The keyword test of the commissions text rule. -/
def commissionsKw (op : List Char) : Bool :=
  incl op "комисс" || incl op "commission" || incl op "сбор" || incl op "fee"

/-- The keyword test of the delivery text rule. -/
def deliveryKw (op : List Char) : Bool :=
  incl op "доставк" || incl op "delivery" || incl op "логистик" || incl op "shipping"

/-- The keyword test of the returns text rule. -/
def returnsKw (op : List Char) : Bool :=
  incl op "возврат" || incl op "return" || incl op "отмен" || incl op "cancel"

/-- The keyword test of the ads text rule. -/
def adsKw (op : List Char) : Bool :=
  incl op "реклам" || incl op "ads" || incl op "продвиж" || incl op "promotion"

/-- The keyword test of the services text rule (before the delivery
exclusion). -/
def servicesKw (op : List Char) : Bool :=
  incl op "услуг" || incl op "service" || incl op "обслуж" || incl op "processing"

/-- The keyword part of the catch-all rule: the operation type matches
none of the sales/commission/delivery/return/ads keywords checked there
(note: the source checks only two keywords per category here, and does
not exclude the services keywords). -/
def catchAllKw (op : List Char) : Bool :=
  !(incl op "продаж") && !(incl op "sale") &&
  !(incl op "комисс") && !(incl op "commission") &&
  !(incl op "доставк") && !(incl op "delivery") &&
  !(incl op "возврат") && !(incl op "return") &&
  !(incl op "реклам") && !(incl op "ads")

/-- Contribution of one raw record to the sales bucket
(`if (accrualsForSale > 0) ... else if (operationType.includes('продаж') ...)`). -/
def salesContribution (r : RawRecord) : ℚ :=
  if 0 < r.accruals_for_sale then r.accruals_for_sale
  else if salesKw (lowerStr r.operation_type_name) = true then |r.amount|
  else 0

/-- Contribution of one raw record to the commissions bucket. -/
def commissionsContribution (r : RawRecord) : ℚ :=
  if 0 < |r.sale_commission| then |r.sale_commission|
  else if commissionsKw (lowerStr r.operation_type_name) = true then |r.amount|
  else 0

/-- Contribution of one raw record to the delivery bucket. -/
def deliveryContribution (r : RawRecord) : ℚ :=
  if 0 < |r.delivery_charge| then |r.delivery_charge|
  else if deliveryKw (lowerStr r.operation_type_name) = true then |r.amount|
  else 0

/-- Contribution of one raw record to the returns bucket. -/
def returnsContribution (r : RawRecord) : ℚ :=
  if 0 < |r.return_delivery_charge| then |r.return_delivery_charge|
  else if returnsKw (lowerStr r.operation_type_name) = true then |r.amount|
  else 0

/-- Contribution of one raw record to the ads bucket. -/
def adsContribution (r : RawRecord) : ℚ :=
  if adsKw (lowerStr r.operation_type_name) = true then |r.amount| else 0

/-- Contribution of one raw record to the services bucket: the services
keyword rule (with its exclusion of `'доставк'`/`'delivery'` texts) plus
the catch-all for uncategorized records with a positive amount.
Both independent `if` statements of the source add to the same bucket. -/
def servicesContribution (r : RawRecord) : ℚ :=
  (if servicesKw (lowerStr r.operation_type_name) = true ∧
      incl (lowerStr r.operation_type_name) "доставк" = false ∧
      incl (lowerStr r.operation_type_name) "delivery" = false then |r.amount|
    else 0) +
  (if 0 < |r.amount| ∧ r.accruals_for_sale = 0 ∧ |r.sale_commission| = 0 ∧
      |r.delivery_charge| = 0 ∧ |r.return_delivery_charge| = 0 ∧
      catchAllKw (lowerStr r.operation_type_name) = true then |r.amount|
    else 0)

/-- Per-category running totals of the Tier3 categorization loop. -/
structure Contrib where
  sales : ℚ
  commissions : ℚ
  delivery : ℚ
  returns : ℚ
  ads : ℚ
  services : ℚ
deriving DecidableEq

/-- The amounts one iteration of the Tier3 loop adds to the six buckets.
The six rules of the source are independent `if` blocks, so one record
may contribute to several buckets at once. -/
def classifyContrib (r : RawRecord) : Contrib :=
  ⟨salesContribution r, commissionsContribution r, deliveryContribution r,
    returnsContribution r, adsContribution r, servicesContribution r⟩

/-- Component-wise sum of two contribution vectors. -/
def addContrib (a b : Contrib) : Contrib :=
  ⟨a.sales + b.sales, a.commissions + b.commissions, a.delivery + b.delivery,
    a.returns + b.returns, a.ads + b.ads, a.services + b.services⟩

/-- The accumulated bucket totals of the Tier3 `forEach` loop. -/
def totalsOf : List RawRecord → Contrib
  | [] => ⟨0, 0, 0, 0, 0, 0⟩
  | r :: rs => addContrib (classifyContrib r) (totalsOf rs)

/-- `FinanceSummary` as exported by the hook module, field order as in the
source object literal (this order is the `Object.entries` iteration
order used when building the category list). -/
structure FinanceSummary where
  sales : ℚ
  commissions : ℚ
  delivery : ℚ
  returns : ℚ
  ads : ℚ
  services : ℚ
  totalIncome : ℚ
  totalExpenses : ℚ
  netProfit : ℚ
deriving DecidableEq

/-- `FinanceCategory` entry of the pie-chart list. -/
structure FinanceCategory where
  category : String
  amount : ℚ
  percentage : ℚ
  color : String
deriving DecidableEq

/-- One pushed category entry: `amount` keeps the signed value for the
sales key and takes `Math.abs` otherwise; `percentage` is
`total > 0 ? amount / total * 100 : 0`. -/
def catEntry (label color : String) (isSales : Bool) (v total : ℚ) : FinanceCategory :=
  ⟨label, if isSales = true then v else |v|,
    if 0 < total then (if isSales = true then v else |v|) / total * 100 else 0,
    color⟩

/-- The category-list construction shared verbatim by the Tier1 and
Tier3 branches: iterate the summary keys in insertion order, keep the
six category keys whose value is not 0 (`value !== 0`), pushing a
`catEntry` for each.  The Russian labels and hex colors are the
module-level `CATEGORY_LABELS` / `CATEGORY_COLORS` tables. -/
def buildCategories (s : FinanceSummary) : List FinanceCategory :=
  (if s.sales ≠ 0 then
    [catEntry "Продажи" "#10b981" true s.sales (s.totalIncome + s.totalExpenses)] else []) ++
  (if s.commissions ≠ 0 then
    [catEntry "Комиссии" "#ef4444" false s.commissions (s.totalIncome + s.totalExpenses)] else []) ++
  (if s.delivery ≠ 0 then
    [catEntry "Доставка" "#f59e0b" false s.delivery (s.totalIncome + s.totalExpenses)] else []) ++
  (if s.returns ≠ 0 then
    [catEntry "Возвраты" "#8b5cf6" false s.returns (s.totalIncome + s.totalExpenses)] else []) ++
  (if s.ads ≠ 0 then
    [catEntry "Реклама" "#06b6d4" false s.ads (s.totalIncome + s.totalExpenses)] else []) ++
  (if s.services ≠ 0 then
    [catEntry "Услуги" "#84cc16" false s.services (s.totalIncome + s.totalExpenses)] else [])

/-- Position of a category label in the fixed enumeration order
`sales, commissions, delivery, returns, ads, services` (the push order
of `buildCategories`). -/
def catIdx : String → Nat
  | "Продажи" => 0
  | "Комиссии" => 1
  | "Доставка" => 2
  | "Возвраты" => 3
  | "Реклама" => 4
  | "Услуги" => 5
  | _ => 6

section SortDesc

variable {α : Type} {β : Type} [LinearOrder β] (key : α → β)

/-- Insertion step of a stable descending sort by `key`: the new element
goes in front of the first element with a strictly smaller key, hence
behind every earlier element with an equal key.  JavaScript
`Array.prototype.sort` with comparator `(a, b) => b.key - a.key` is a
stable descending sort, so it produces exactly this order. -/
def insDesc (x : α) : List α → List α
  | [] => [x]
  | y :: ys => if key x < key y then y :: insDesc x ys else x :: y :: ys

/-- Stable descending sort by `key` (embedding of
`categories.sort((a, b) => b.amount - a.amount)` and of the backend
`order(..., { ascending: false })`). -/
def sortDescBy : List α → List α
  | [] => []
  | x :: xs => insDesc key x (sortDescBy xs)

theorem mem_insDesc (x z : α) (l : List α) :
    z ∈ insDesc key x l ↔ z = x ∨ z ∈ l := by
  induction l with
  | nil => simp [insDesc]
  | cons y ys ih =>
    simp only [insDesc]
    split
    · simp only [List.mem_cons, ih]
      tauto
    · simp only [List.mem_cons]

theorem mem_sortDescBy (z : α) (l : List α) :
    z ∈ sortDescBy key l ↔ z ∈ l := by
  induction l with
  | nil => simp [sortDescBy]
  | cons y ys ih =>
    simp only [sortDescBy, mem_insDesc, List.mem_cons, ih]

theorem insDesc_sorted (x : α) (l : List α)
    (h : l.Pairwise (fun a b => key b ≤ key a)) :
    (insDesc key x l).Pairwise (fun a b => key b ≤ key a) := by
  induction l with
  | nil => simp [insDesc]
  | cons y ys ih =>
    rw [List.pairwise_cons] at h
    obtain ⟨hy, hys⟩ := h
    simp only [insDesc]
    split
    · rename_i hlt
      rw [List.pairwise_cons]
      refine ⟨fun z hz => ?_, ih hys⟩
      rcases (mem_insDesc key x z ys).1 hz with rfl | hz'
      · exact le_of_lt hlt
      · exact hy z hz'
    · rename_i hge
      rw [List.pairwise_cons]
      refine ⟨fun z hz => ?_, List.pairwise_cons.mpr ⟨hy, hys⟩⟩
      rcases List.mem_cons.mp hz with rfl | hz'
      · exact le_of_not_lt hge
      · exact le_trans (hy z hz') (le_of_not_lt hge)

theorem sortDescBy_sorted (l : List α) :
    (sortDescBy key l).Pairwise (fun a b => key b ≤ key a) := by
  induction l with
  | nil => simp [sortDescBy]
  | cons y ys ih => exact insDesc_sorted key y (sortDescBy key ys) ih

variable (idx : α → Nat)

/-- Strict descending order with ties resolved by a secondary index:
what the stable sort guarantees when the input has strictly increasing
indices. -/
def StrictSorted (l : List α) : Prop :=
  l.Pairwise (fun a b => key b < key a ∨ (key a = key b ∧ idx a < idx b))

theorem insDesc_stable (x : α) (l : List α)
    (h : StrictSorted key idx l)
    (hx : ∀ y ∈ l, key x = key y → idx x < idx y) :
    StrictSorted key idx (insDesc key x l) := by
  induction l with
  | nil => simp [insDesc, StrictSorted]
  | cons y ys ih =>
    rw [StrictSorted, List.pairwise_cons] at h
    obtain ⟨hy, hys⟩ := h
    simp only [insDesc]
    split
    · rename_i hlt
      rw [StrictSorted, List.pairwise_cons]
      refine ⟨fun z hz => ?_, ?_⟩
      · rcases (mem_insDesc key x z ys).1 hz with rfl | hz'
        · exact Or.inl hlt
        · exact hy z hz'
      · exact ih hys (fun z hz hk => hx z (List.mem_cons_of_mem y hz) hk)
    · rename_i hge
      have hyx : key y ≤ key x := le_of_not_lt hge
      rw [StrictSorted, List.pairwise_cons]
      refine ⟨fun z hz => ?_, List.pairwise_cons.mpr ⟨hy, hys⟩⟩
      rcases List.mem_cons.mp hz with rfl | hz'
      · rcases lt_or_eq_of_le hyx with hlt' | heq
        · exact Or.inl hlt'
        · exact Or.inr ⟨heq.symm, hx z (List.mem_cons_self z ys) heq.symm⟩
      · rcases hy z hz' with hlt' | ⟨heq, _⟩
        · exact Or.inl (lt_of_lt_of_le hlt' hyx)
        · rcases lt_or_eq_of_le hyx with hlt'' | heq'
          · exact Or.inl (heq ▸ hlt'')
          · exact Or.inr ⟨heq' ▸ heq ▸ rfl,
              hx z (List.mem_cons_of_mem y hz') (by rw [← heq', heq])⟩

theorem sortDescBy_stable (l : List α)
    (h : l.Pairwise (fun a b => key a = key b → idx a < idx b)) :
    StrictSorted key idx (sortDescBy key l) := by
  induction l with
  | nil => simp [sortDescBy, StrictSorted]
  | cons y ys ih =>
    rw [List.pairwise_cons] at h
    obtain ⟨hy, hys⟩ := h
    exact insDesc_stable key idx y (sortDescBy key ys) (ih hys)
      (fun z hz hk => hy z ((mem_sortDescBy key z ys).1 hz) hk)

end SortDesc

/-- The sort applied to the category list:
`categories.sort((a, b) => b.amount - a.amount)`. -/
def sortCategories (l : List FinanceCategory) : List FinanceCategory :=
  sortDescBy (fun c => c.amount) l

/-- One row of the `dashboard_summary` view (Tier1 source), fields
already coerced by `toNumber`. -/
structure SummaryRow where
  total_revenue : ℚ
  total_commission : ℚ
  total_service_costs : ℚ
  total_payout : ℚ
deriving DecidableEq

/-- The Tier1 summary: per-field sums of the view rows, with the
delivery/services buckets estimated as a 30%/70% split of the total
service costs and `netProfit` taken from the backend payout total. -/
def tier1Summary (rows : List SummaryRow) : FinanceSummary :=
  ⟨(rows.map (fun r => r.total_revenue)).sum,
    (rows.map (fun r => r.total_commission)).sum,
    (rows.map (fun r => r.total_service_costs)).sum * (3 / 10),
    0,
    0,
    (rows.map (fun r => r.total_service_costs)).sum * (7 / 10),
    (rows.map (fun r => r.total_revenue)).sum,
    (rows.map (fun r => r.total_commission)).sum +
      (rows.map (fun r => r.total_service_costs)).sum,
    (rows.map (fun r => r.total_payout)).sum⟩

/-- The `{summary, categories}` object returned by the hook. -/
structure FinanceResult where
  summary : FinanceSummary
  categories : List FinanceCategory
deriving DecidableEq

/-- The value returned by the Tier1 branch on success. -/
def tier1Result (rows : List SummaryRow) : FinanceResult :=
  ⟨tier1Summary rows, sortCategories (buildCategories (tier1Summary rows))⟩

/-- The single row shape returned by the `get_finance_summary` RPC
(Tier2 source). -/
structure RpcRow where
  total_sales : ℚ
  total_commissions : ℚ
  total_delivery : ℚ
  total_returns : ℚ
  total_ads : ℚ
  total_services : ℚ
  total_income : ℚ
  total_expenses : ℚ
  net_profit : ℚ
deriving DecidableEq

/-- The Tier2 summary: `data?.[0] || {}`, every field read with
`toNumber(...) || 0`, so a missing row yields all zeros and an existing
row is copied field by field, with no recomputation of the totals. -/
def tier2Summary : Option RpcRow → FinanceSummary
  | none => ⟨0, 0, 0, 0, 0, 0, 0, 0, 0⟩
  | some r => ⟨r.total_sales, r.total_commissions, r.total_delivery, r.total_returns,
      r.total_ads, r.total_services, r.total_income, r.total_expenses, r.net_profit⟩

/-- The value returned by the Tier2 branch on success: note the empty
category list (`return { summary, categories: [] }`). -/
def tier2Result (rows : List RpcRow) : FinanceResult :=
  ⟨tier2Summary rows.head?, []⟩

/-- The fixed demo dataset substituted when every bucket total is
exactly zero (`// Ensure minimum values for demonstration ...`). -/
def demoOr (t : Contrib) : Contrib :=
  if t.sales = 0 ∧ t.commissions = 0 ∧ t.delivery = 0 ∧ t.returns = 0 ∧
      t.ads = 0 ∧ t.services = 0 then
    ⟨10000, 1500, 800, 200, 300, 500⟩
  else t

/-- The Tier3 summary built from the (possibly demo-substituted) bucket
totals: `totalIncome = totalSales`, `totalExpenses` the sum of the five
expense buckets, `netProfit` their difference. -/
def tier3Summary (recs : List RawRecord) : FinanceSummary :=
  ⟨(demoOr (totalsOf recs)).sales,
    (demoOr (totalsOf recs)).commissions,
    (demoOr (totalsOf recs)).delivery,
    (demoOr (totalsOf recs)).returns,
    (demoOr (totalsOf recs)).ads,
    (demoOr (totalsOf recs)).services,
    (demoOr (totalsOf recs)).sales,
    (demoOr (totalsOf recs)).commissions + (demoOr (totalsOf recs)).delivery +
      (demoOr (totalsOf recs)).returns + (demoOr (totalsOf recs)).ads +
      (demoOr (totalsOf recs)).services,
    (demoOr (totalsOf recs)).sales -
      ((demoOr (totalsOf recs)).commissions + (demoOr (totalsOf recs)).delivery +
        (demoOr (totalsOf recs)).returns + (demoOr (totalsOf recs)).ads +
        (demoOr (totalsOf recs)).services)⟩

/-- The value returned by the Tier3 branch when the raw fetch succeeds. -/
def tier3Result (recs : List RawRecord) : FinanceResult :=
  ⟨tier3Summary recs, sortCategories (buildCategories (tier3Summary recs))⟩

/-- The nested try/catch chain of `useFinanceData`'s `queryFn`: each
argument is the outcome of the corresponding backend call (the Tier2 and
Tier3 calls are only ever issued in the reached branches).  A Tier1
failure falls through to Tier2, a Tier2 failure falls through to Tier3,
and a Tier3 fetch failure is rethrown to the caller. -/
def resolveFinance (t1 : Except String (List SummaryRow))
    (t2 : Except String (List RpcRow))
    (t3 : Except String (List RawRecord)) : Except String FinanceResult :=
  match t1 with
  | .ok rows => .ok (tier1Result rows)
  | .error _ =>
    match t2 with
    | .ok rpcRows => .ok (tier2Result rpcRows)
    | .error _ =>
      match t3 with
      | .ok recs => .ok (tier3Result recs)
      | .error e => .error e

/-- One row of the breakdown table produced by `useFinanceBreakdown`. -/
structure BreakdownRow where
  date_msk : Nat
  posting_number : String
  sales : ℚ
  commissions : ℚ
  delivery : ℚ
  returns : ℚ
  ads : ℚ
  services : ℚ
  net_profit : ℚ
  operation_type : List Char
deriving DecidableEq

/-- Projection of one raw record in the current `useFinanceBreakdown`
(src/hooks/useFinanceData.ts): category contributions read straight off
the structured fields, `ads` always 0, `services` always
`Math.abs(toNumber(item.amount))`, `net_profit` the raw signed amount.
Dates are embedded as naturals ordered like the Moscow-day strings; the
fetched rows passed the `gte`/`lte` date filter, so their dates are
present and the `|| formatMoscowDate(new Date())` fallback is not
taken. -/
def breakRow (item : RawRecord) : BreakdownRow :=
  ⟨item.operation_date_msk,
    if item.posting_number = "" then "N/A" else item.posting_number,
    item.accruals_for_sale,
    |item.sale_commission|,
    |item.delivery_charge|,
    |item.return_delivery_charge|,
    0,
    |item.amount|,
    item.amount,
    item.operation_type_name⟩

/-- The current `useFinanceBreakdown` read path: the backend returns the
raw rows of the active date range ordered by `operation_date_msk`
descending and limited to 100, and each row is projected with
`breakRow`. -/
def financeBreakdown (table : List RawRecord) : List BreakdownRow :=
  ((sortDescBy (fun r => r.operation_date_msk) table).take 100).map breakRow

/-- One row of the `transactions` table used by the earlier variant of
the hook kept in the repository. -/
structure TransactionRecord where
  operation_date : Nat
  posting_number : String
  amount : ℚ
  operation_type_name : List Char
deriving DecidableEq

/-- Projection of one transaction in the earlier `useFinanceBreakdown`
variant: `delivery` gets `abs(amount)` exactly when the lower-cased
operation type contains `'delivery'`, `services` gets it otherwise;
`net_profit` is the raw signed amount. -/
def breakRowVariant (item : TransactionRecord) : BreakdownRow :=
  ⟨item.operation_date,
    if item.posting_number = "" then "N/A" else item.posting_number,
    0,
    0,
    if incl (lowerStr item.operation_type_name) "delivery" = true then |item.amount| else 0,
    0,
    0,
    if incl (lowerStr item.operation_type_name) "delivery" = true then 0 else |item.amount|,
    item.amount,
    item.operation_type_name⟩

/-- The earlier `useFinanceBreakdown` variant read path (same 100-row
window, ordered by `operation_date` descending). -/
def financeBreakdownVariant (table : List TransactionRecord) : List BreakdownRow :=
  ((sortDescBy (fun t => t.operation_date) table).take 100).map breakRowVariant

theorem salesContribution_nonneg (r : RawRecord) : 0 ≤ salesContribution r := by
  unfold salesContribution
  split_ifs with h1 h2
  · exact le_of_lt h1
  · exact abs_nonneg _
  · exact le_refl 0

theorem commissionsContribution_nonneg (r : RawRecord) : 0 ≤ commissionsContribution r := by
  unfold commissionsContribution
  split_ifs with h1 h2
  · exact le_of_lt h1
  · exact abs_nonneg _
  · exact le_refl 0

theorem deliveryContribution_nonneg (r : RawRecord) : 0 ≤ deliveryContribution r := by
  unfold deliveryContribution
  split_ifs with h1 h2
  · exact le_of_lt h1
  · exact abs_nonneg _
  · exact le_refl 0

theorem returnsContribution_nonneg (r : RawRecord) : 0 ≤ returnsContribution r := by
  unfold returnsContribution
  split_ifs with h1 h2
  · exact le_of_lt h1
  · exact abs_nonneg _
  · exact le_refl 0

theorem adsContribution_nonneg (r : RawRecord) : 0 ≤ adsContribution r := by
  unfold adsContribution
  split_ifs
  · exact abs_nonneg _
  · exact le_refl 0

theorem servicesContribution_nonneg (r : RawRecord) : 0 ≤ servicesContribution r := by
  unfold servicesContribution
  split_ifs <;> positivity

theorem totalsOf_nonneg (recs : List RawRecord) :
    0 ≤ (totalsOf recs).sales ∧ 0 ≤ (totalsOf recs).commissions ∧
    0 ≤ (totalsOf recs).delivery ∧ 0 ≤ (totalsOf recs).returns ∧
    0 ≤ (totalsOf recs).ads ∧ 0 ≤ (totalsOf recs).services := by
  induction recs with
  | nil => norm_num [totalsOf]
  | cons r rs ih =>
    obtain ⟨h1, h2, h3, h4, h5, h6⟩ := ih
    refine ⟨?_, ?_, ?_, ?_, ?_, ?_⟩ <;>
      simp only [totalsOf, addContrib, classifyContrib] <;>
      first
        | exact add_nonneg (salesContribution_nonneg r) h1
        | exact add_nonneg (commissionsContribution_nonneg r) h2
        | exact add_nonneg (deliveryContribution_nonneg r) h3
        | exact add_nonneg (returnsContribution_nonneg r) h4
        | exact add_nonneg (adsContribution_nonneg r) h5
        | exact add_nonneg (servicesContribution_nonneg r) h6

theorem tier3Buckets_nonneg (recs : List RawRecord) :
    0 ≤ (tier3Summary recs).sales ∧ 0 ≤ (tier3Summary recs).commissions ∧
    0 ≤ (tier3Summary recs).delivery ∧ 0 ≤ (tier3Summary recs).returns ∧
    0 ≤ (tier3Summary recs).ads ∧ 0 ≤ (tier3Summary recs).services := by
  obtain ⟨h1, h2, h3, h4, h5, h6⟩ := totalsOf_nonneg recs
  unfold tier3Summary demoOr
  split_ifs with h
  · norm_num
  · exact ⟨h1, h2, h3, h4, h5, h6⟩

/-- C1 counterexample: the raw record `{accruals_for_sale: 1000,
sale_commission: -150}` is counted in two buckets at once — the Tier3
loop adds 1000 to sales and 150 to commissions for this single record,
because the six category rules are independent `if` blocks rather than
an exclusive classifier. -/
theorem c1_two_buckets_counterexample :
    (classifyContrib ⟨1000, -150, 0, 0, 0, [], 0, ""⟩).sales = 1000 ∧
    (classifyContrib ⟨1000, -150, 0, 0, 0, [], 0, ""⟩).commissions = 150 ∧
    (classifyContrib ⟨1000, -150, 0, 0, 0, [], 0, ""⟩).sales ≠ 0 ∧
    (classifyContrib ⟨1000, -150, 0, 0, 0, [], 0, ""⟩).commissions ≠ 0 := by
  refine ⟨by decide, ?_, by decide, ?_⟩ <;> decide

/-- C1 as amended: the six category rules fire independently, so a
record can contribute to several buckets; exclusivity holds only when a
single rule fires.  In particular a record whose operation type is
empty, whose only non-zero structured field is a positive
`accruals_for_sale`, contributes its amount to the sales bucket and
nothing anywhere else. -/
theorem c1_single_structured_signal (r : RawRecord)
    (hop : r.operation_type_name = []) (hc : r.sale_commission = 0)
    (hd : r.delivery_charge = 0) (hrd : r.return_delivery_charge = 0)
    (ha : 0 < r.accruals_for_sale) :
    classifyContrib r = ⟨r.accruals_for_sale, 0, 0, 0, 0, 0⟩ := by
  have hop' : lowerStr r.operation_type_name = [] := by rw [hop]; rfl
  unfold classifyContrib salesContribution commissionsContribution deliveryContribution
    returnsContribution adsContribution servicesContribution
  rw [hop', hc, hd, hrd]
  norm_num +decide [ha, ha.ne']

/-- Witness for `c1_single_structured_signal` at a concrete record. -/
theorem c1_single_structured_signal_witness :
    classifyContrib ⟨5, 0, 0, 0, 0, [], 0, ""⟩ = ⟨5, 0, 0, 0, 0, 0⟩ :=
  c1_single_structured_signal ⟨5, 0, 0, 0, 0, [], 0, ""⟩ rfl rfl rfl rfl (by norm_num)

/-- C2: evaluation of the code at the failing input.  A Tier3 run whose
date range matches zero raw records does not return the all-zero summary
and empty category list the (corrected) design calls for: the code
substitutes the fixed demo dataset `sales=10000, commissions=1500,
delivery=800, returns=200, ads=300, services=500` and returns six
fabricated category entries. -/
theorem c2_demo_substitution_on_empty :
    (tier3Result []).summary = ⟨10000, 1500, 800, 200, 300, 500, 10000, 3300, 6700⟩ ∧
    (tier3Result []).categories ≠ [] ∧ (tier3Result []).categories.length = 6 := by
  refine ⟨?_, ?_, ?_⟩ <;>
    norm_num +decide [tier3Result, tier3Summary, demoOr, totalsOf, sortCategories,
      buildCategories, catEntry, sortDescBy, insDesc]

/-- C3 counterexample: the Tier2 branch copies the RPC row's
`total_income` and `total_sales` fields verbatim without recomputing
them, so a backend row with `total_sales = 7` and `total_income = 5`
yields a returned summary violating `totalIncome = sales`. -/
theorem c3_tier2_passthrough_counterexample :
    (tier2Result [⟨7, 0, 0, 0, 0, 0, 5, 0, 0⟩]).summary.totalIncome ≠
    (tier2Result [⟨7, 0, 0, 0, 0, 0, 5, 0, 0⟩]).summary.sales := by decide

/-- C3 as amended: the Tier1 and Tier3 summaries satisfy
`totalIncome = sales` and `totalExpenses = commissions + delivery +
returns + ads + services` (for Tier1 exactly, since the 30%/70% split of
the service costs sums back to the whole); the Tier2 summary only copies
whatever totals the backend reports, so the invariant holds there only
if the backend respects it. -/
theorem c3_totals_invariant_tier1_tier3 (rows : List SummaryRow) (recs : List RawRecord) :
    (tier1Summary rows).totalIncome = (tier1Summary rows).sales ∧
    (tier1Summary rows).totalExpenses =
      (tier1Summary rows).commissions + (tier1Summary rows).delivery +
      (tier1Summary rows).returns + (tier1Summary rows).ads +
      (tier1Summary rows).services ∧
    (tier3Summary recs).totalIncome = (tier3Summary recs).sales ∧
    (tier3Summary recs).totalExpenses =
      (tier3Summary recs).commissions + (tier3Summary recs).delivery +
      (tier3Summary recs).returns + (tier3Summary recs).ads +
      (tier3Summary recs).services := by
  refine ⟨rfl, ?_, rfl, rfl⟩
  simp only [tier1Summary]
  ring

/-- C4 counterexample: `"услуги логистики"` matches the services keyword
`'услуг'` and the delivery keyword `'логистик'`, yet the services rule
still fires (the code's exclusion only tests `'доставк'` and
`'delivery'`): the record is counted as delivery (10) and also twice as
services (the services rule and the catch-all both add 10). -/
theorem c4_logistics_counterexample :
    incl (lowerStr ("услуги логистики".toList)) "услуг" = true ∧
    incl (lowerStr ("услуги логистики".toList)) "логистик" = true ∧
    (classifyContrib ⟨0, 0, 0, 0, 10, "услуги логистики".toList, 0, ""⟩).services = 20 ∧
    (classifyContrib ⟨0, 0, 0, 0, 10, "услуги логистики".toList, 0, ""⟩).delivery = 10 := by
  refine ⟨by decide, by decide, ?_, by decide⟩
  norm_num +decide [classifyContrib, servicesContribution]

/-- C4 as amended: the delivery exclusion inside the services rule only
tests the two keywords `'доставк'` and `'delivery'` (not `'логистик'`
or `'shipping'`).  When the lower-cased operation type contains one of
those two, the services bucket receives nothing from the record and,
if its structured `delivery_charge` is 0, its absolute amount goes to
the delivery bucket. -/
theorem c4_delivery_text_blocks_services (r : RawRecord)
    (h : incl (lowerStr r.operation_type_name) "доставк" = true ∨
      incl (lowerStr r.operation_type_name) "delivery" = true) :
    (classifyContrib r).services = 0 ∧
    (r.delivery_charge = 0 → (classifyContrib r).delivery = |r.amount|) := by
  constructor
  · show servicesContribution r = 0
    unfold servicesContribution catchAllKw
    rcases h with h | h <;> simp [h]
  · intro hd
    show deliveryContribution r = |r.amount|
    unfold deliveryContribution deliveryKw
    rcases h with h | h <;> simp [h, hd]

/-- Witness for `c4_delivery_text_blocks_services` at the spec's own
example record `{operation_type_name: "услуга доставки", amount: 80}`. -/
theorem c4_delivery_text_blocks_services_witness :
    (classifyContrib ⟨0, 0, 0, 0, 80, "услуга доставки".toList, 0, ""⟩).services = 0 ∧
    (classifyContrib ⟨0, 0, 0, 0, 80, "услуга доставки".toList, 0, ""⟩).delivery = |(80 : ℚ)| := by
  have h := c4_delivery_text_blocks_services ⟨0, 0, 0, 0, 80, "услуга доставки".toList, 0, ""⟩
    (Or.inl (by decide))
  exact ⟨h.1, h.2 rfl⟩

/-- C5: the spec's worked example.  The three raw records
`{accruals_for_sale: 1000}`, `{sale_commission: -150}` and
`{operation_type_name: "Доставка", amount: 80}` produce exactly the
summary `{sales: 1000, commissions: 150, delivery: 80, returns: 0,
ads: 0, services: 0, totalIncome: 1000, totalExpenses: 230,
netProfit: 770}` and the sorted category list
`[sales: 1000, commissions: 150, delivery: 80]` whose exact percentages
are within 0.05 of the quoted 81.3 / 12.2 / 6.5. -/
theorem c5_worked_example :
    tier3Summary [⟨1000, 0, 0, 0, 0, [], 0, ""⟩, ⟨0, -150, 0, 0, 0, [], 0, ""⟩,
      ⟨0, 0, 0, 0, 80, "Доставка".toList, 0, ""⟩] =
      ⟨1000, 150, 80, 0, 0, 0, 1000, 230, 770⟩ ∧
    (tier3Result [⟨1000, 0, 0, 0, 0, [], 0, ""⟩, ⟨0, -150, 0, 0, 0, [], 0, ""⟩,
      ⟨0, 0, 0, 0, 80, "Доставка".toList, 0, ""⟩]).categories =
      [⟨"Продажи", 1000, 100000 / 1230, "#10b981"⟩,
        ⟨"Комиссии", 150, 15000 / 1230, "#ef4444"⟩,
        ⟨"Доставка", 80, 8000 / 1230, "#f59e0b"⟩] ∧
    |(100000 / 1230 : ℚ) - 813 / 10| ≤ 1 / 20 ∧
    |(15000 / 1230 : ℚ) - 122 / 10| ≤ 1 / 20 ∧
    |(8000 / 1230 : ℚ) - 65 / 10| ≤ 1 / 20 := by
  refine ⟨?_, ?_, ?_, ?_, ?_⟩ <;>
    first
      | (rw [abs_le]; constructor <;> norm_num)
      | norm_num +decide [tier3Result, tier3Summary, demoOr, totalsOf, addContrib,
          classifyContrib, salesContribution, commissionsContribution, deliveryContribution,
          returnsContribution, adsContribution, servicesContribution,
          sortCategories, buildCategories, catEntry, sortDescBy, insDesc]

/-- C6 counterexample: the entry guard is `value !== 0`, not
`value > 0`.  A Tier1 backend row with `total_revenue = -100` makes the
sales bucket (and the signed sales entry amount) negative, yet an entry
is still built — with amount −100 and percentage 0 (the denominator
−100 is not > 0). -/
theorem c6_negative_entry_counterexample :
    (tier1Result [⟨-100, 0, 0, 0⟩]).categories =
      [⟨"Продажи", -100, 0, "#10b981"⟩] := by
  norm_num +decide [tier1Result, tier1Summary, sortCategories, buildCategories,
    catEntry, sortDescBy, insDesc]

theorem mem_cond_singleton {p : Prop} [Decidable p] {e c : FinanceCategory}
    (h : c ∈ (if p then [e] else [])) : p ∧ c = e := by
  by_cases hp : p
  · rw [if_pos hp] at h
    exact ⟨hp, List.mem_singleton.mp h⟩
  · rw [if_neg hp] at h
    exact absurd h (List.not_mem_nil c)

theorem buildCategories_mem (s : FinanceSummary) (c : FinanceCategory)
    (h : c ∈ buildCategories s) :
    c.percentage = (if 0 < s.totalIncome + s.totalExpenses
      then c.amount / (s.totalIncome + s.totalExpenses) * 100 else 0) ∧
    (0 < c.amount ∨ (c.category = "Продажи" ∧ c.amount = s.sales ∧ s.sales ≠ 0)) := by
  unfold buildCategories at h
  simp only [List.mem_append] at h
  rcases h with ((((h | h) | h) | h) | h) | h <;>
    obtain ⟨hp, rfl⟩ := mem_cond_singleton h
  · exact ⟨by simp [catEntry], Or.inr ⟨rfl, by simp [catEntry], hp⟩⟩
  · exact ⟨by simp [catEntry], Or.inl (by simpa [catEntry, abs_pos] using hp)⟩
  · exact ⟨by simp [catEntry], Or.inl (by simpa [catEntry, abs_pos] using hp)⟩
  · exact ⟨by simp [catEntry], Or.inl (by simpa [catEntry, abs_pos] using hp)⟩
  · exact ⟨by simp [catEntry], Or.inl (by simpa [catEntry, abs_pos] using hp)⟩
  · exact ⟨by simp [catEntry], Or.inl (by simpa [catEntry, abs_pos] using hp)⟩

/-- C6 as amended: entries are built for every bucket with a non-zero
value — for the non-sales buckets the amount is the absolute value
(hence strictly positive), while the sales entry keeps the signed value
and can be negative at Tier1; in the Tier3 path every bucket is
non-negative, so there all entries have amount strictly greater than 0.
Each entry's percentage is `amount / (totalIncome + totalExpenses) *
100` when that denominator is positive and 0 otherwise (in particular 0
when the denominator is 0). -/
theorem c6_category_entries :
    (∀ rows : List SummaryRow, ∀ c ∈ (tier1Result rows).categories,
      c.percentage = (if 0 < (tier1Summary rows).totalIncome + (tier1Summary rows).totalExpenses
        then c.amount / ((tier1Summary rows).totalIncome + (tier1Summary rows).totalExpenses) * 100
        else 0)) ∧
    (∀ recs : List RawRecord, ∀ c ∈ (tier3Result recs).categories,
      0 < c.amount ∧
      c.percentage = (if 0 < (tier3Summary recs).totalIncome + (tier3Summary recs).totalExpenses
        then c.amount / ((tier3Summary recs).totalIncome + (tier3Summary recs).totalExpenses) * 100
        else 0)) := by
  constructor
  · intro rows c hc
    exact (buildCategories_mem _ c ((mem_sortDescBy _ c _).1 hc)).1
  · intro recs c hc
    obtain ⟨hpct, hpos⟩ := buildCategories_mem _ c ((mem_sortDescBy _ c _).1 hc)
    refine ⟨?_, hpct⟩
    rcases hpos with h | ⟨_, hamt, hne⟩
    · exact h
    · rw [hamt]
      exact lt_of_le_of_ne (tier3Buckets_nonneg recs).1 (Ne.symm hne)

/-- Witness for `c6_category_entries` at the Tier3 demo output's sales
entry. -/
theorem c6_category_entries_witness :
    0 < (⟨"Продажи", 10000, 1000000 / 13300, "#10b981"⟩ : FinanceCategory).amount ∧
    (⟨"Продажи", 10000, 1000000 / 13300, "#10b981"⟩ : FinanceCategory).percentage =
      (if 0 < (tier3Summary []).totalIncome + (tier3Summary []).totalExpenses
        then (⟨"Продажи", 10000, 1000000 / 13300, "#10b981"⟩ : FinanceCategory).amount /
          ((tier3Summary []).totalIncome + (tier3Summary []).totalExpenses) * 100
        else 0) :=
  c6_category_entries.2 [] ⟨"Продажи", 10000, 1000000 / 13300, "#10b981"⟩ (by
    norm_num +decide [tier3Result, tier3Summary, demoOr, totalsOf, sortCategories,
      buildCategories, catEntry, sortDescBy, insDesc])

set_option maxRecDepth 2000 in
set_option maxHeartbeats 1000000 in
theorem buildCategories_idx (s : FinanceSummary) :
    (buildCategories s).Pairwise (fun a b => catIdx a.category < catIdx b.category) := by
  unfold buildCategories
  split_ifs <;>
    simp [catEntry, catIdx, List.pairwise_cons, List.pairwise_append]

/-- The order required of every returned category list: strictly
descending by amount, with equal amounts in the fixed enumeration order
`sales, commissions, delivery, returns, ads, services`. -/
def CatOrdered : List FinanceCategory → Prop :=
  StrictSorted (fun c => c.amount) (fun c => catIdx c.category)

/-- C7: every returned category list — from Tier1, Tier2 (trivially, as
the empty list) and Tier3 — is sorted descending by amount, and entries
with equal amounts appear in the fixed enumeration order, because the
entries are pushed in that order and the sort is stable. -/
theorem c7_categories_sorted (rows : List SummaryRow) (rpc : List RpcRow)
    (recs : List RawRecord) :
    CatOrdered (tier1Result rows).categories ∧
    CatOrdered (tier2Result rpc).categories ∧
    CatOrdered (tier3Result recs).categories := by
  refine ⟨?_, List.Pairwise.nil, ?_⟩
  · refine sortDescBy_stable (fun c : FinanceCategory => c.amount)
      (fun c : FinanceCategory => catIdx c.category)
      (buildCategories (tier1Summary rows))
      (List.Pairwise.imp ?_ (buildCategories_idx (tier1Summary rows)))
    intro a b hlt _
    exact hlt
  · refine sortDescBy_stable (fun c : FinanceCategory => c.amount)
      (fun c : FinanceCategory => catIdx c.category)
      (buildCategories (tier3Summary recs))
      (List.Pairwise.imp ?_ (buildCategories_idx (tier3Summary recs)))
    intro a b hlt _
    exact hlt

/-- C8: the tier fallback chain.  A Tier1 success is returned as is (and
fully determines the result); on a Tier1 error the result is computed
from the Tier2 data alone; on Tier1 and Tier2 errors the Tier3 pipeline
runs end-to-end on the raw records; and an error of the Tier3 raw fetch
is propagated to the caller unchanged.  Each equation exhibits the
result as a function of the winning tier's data only, so no data from a
failed attempt is merged in. -/
theorem c8_fallback_chain :
    (∀ (rows : List SummaryRow) (t2 : Except String (List RpcRow))
        (t3 : Except String (List RawRecord)),
      resolveFinance (Except.ok rows) t2 t3 = Except.ok (tier1Result rows)) ∧
    (∀ (e : String) (d : List RpcRow) (t3 : Except String (List RawRecord)),
      resolveFinance (Except.error e) (Except.ok d) t3 = Except.ok (tier2Result d)) ∧
    (∀ (e e2 : String) (recs : List RawRecord),
      resolveFinance (Except.error e) (Except.error e2) (Except.ok recs) =
        Except.ok (tier3Result recs)) ∧
    (∀ (e e2 f : String),
      resolveFinance (Except.error e) (Except.error e2) (Except.error f) =
        Except.error f) :=
  ⟨fun _ _ _ => rfl, fun _ _ _ => rfl, fun _ _ _ => rfl, fun _ _ _ => rfl⟩

/-- C9 counterexample: in the current `useFinanceBreakdown`
(src/hooks/useFinanceData.ts) the services column is
`Math.abs(toNumber(item.amount))` unconditionally, so a delivery-tagged
record (operation type containing `delivery`) still gets a non-zero
services contribution equal to `abs(amount)`; only the earlier variant
zeroes it for delivery-tagged records. -/
theorem c9_services_despite_delivery_tag :
    incl (lowerStr ("delivery".toList)) "delivery" = true ∧
    (breakRow ⟨0, 0, 5, 0, 80, "delivery".toList, 3, "p1"⟩).services = |(80 : ℚ)| ∧
    (breakRow ⟨0, 0, 5, 0, 80, "delivery".toList, 3, "p1"⟩).services ≠ 0 ∧
    (breakRowVariant ⟨3, "p1", 80, "delivery".toList⟩).services = 0 := by
  refine ⟨by decide, rfl, by decide, ?_⟩
  norm_num +decide [breakRowVariant]

/-- C9 as amended: both breakdown read paths return at most 100 rows,
ordered most recent first, and each row's `net_profit` is the raw
signed amount; but the delivery-tag exclusion for the services column
exists only in the earlier variant (`services = abs(amount)` exactly
when the lower-cased operation type does not contain `'delivery'`),
while the current hook sets `services = abs(amount)` unconditionally. -/
theorem c9_breakdown_window_and_rows :
    (∀ table : List RawRecord, (financeBreakdown table).length ≤ 100 ∧
      ((financeBreakdown table).map (fun row => row.date_msk)).Pairwise
        (fun a b => b ≤ a)) ∧
    (∀ r : RawRecord, (breakRow r).net_profit = r.amount ∧
      (breakRow r).services = |r.amount|) ∧
    (∀ table : List TransactionRecord, (financeBreakdownVariant table).length ≤ 100 ∧
      ((financeBreakdownVariant table).map (fun row => row.date_msk)).Pairwise
        (fun a b => b ≤ a)) ∧
    (∀ t : TransactionRecord,
      (breakRowVariant t).net_profit = t.amount ∧
      (breakRowVariant t).services =
        (if incl (lowerStr t.operation_type_name) "delivery" = true then 0
          else |t.amount|) ∧
      (breakRowVariant t).delivery =
        (if incl (lowerStr t.operation_type_name) "delivery" = true then |t.amount|
          else 0)) := by
  refine ⟨fun table => ⟨?_, ?_⟩, fun r => ⟨rfl, rfl⟩, fun table => ⟨?_, ?_⟩,
    fun t => ⟨rfl, rfl, rfl⟩⟩
  · simp only [financeBreakdown, List.length_map, List.length_take]
    exact min_le_left _ _
  · rw [financeBreakdown, List.map_map, List.pairwise_map]
    exact List.Pairwise.sublist (List.take_sublist _ _)
      (sortDescBy_sorted (fun r : RawRecord => r.operation_date_msk) table)
  · simp only [financeBreakdownVariant, List.length_map, List.length_take]
    exact min_le_left _ _
  · rw [financeBreakdownVariant, List.map_map, List.pairwise_map]
    exact List.Pairwise.sublist (List.take_sublist _ _)
      (sortDescBy_sorted (fun t : TransactionRecord => t.operation_date) table)

/-- C10: in the Tier3 path every bucket total is non-negative for every
input record sequence — negative `accruals_for_sale` values are skipped
rather than subtracted, and every other contribution is an absolute
value (the demo substitution is also non-negative) — so the returned
summary always has `sales ≥ 0`, `totalIncome = sales ≥ 0`,
`totalExpenses ≥ 0` and `netProfit ≤ totalIncome`. -/
theorem c10_tier3_summary_nonneg (recs : List RawRecord) :
    0 ≤ (tier3Summary recs).sales ∧ 0 ≤ (tier3Summary recs).commissions ∧
    0 ≤ (tier3Summary recs).delivery ∧ 0 ≤ (tier3Summary recs).returns ∧
    0 ≤ (tier3Summary recs).ads ∧ 0 ≤ (tier3Summary recs).services ∧
    (tier3Summary recs).totalIncome = (tier3Summary recs).sales ∧
    0 ≤ (tier3Summary recs).totalIncome ∧
    0 ≤ (tier3Summary recs).totalExpenses ∧
    (tier3Summary recs).netProfit ≤ (tier3Summary recs).totalIncome := by
  obtain ⟨h1, h2, h3, h4, h5, h6⟩ := tier3Buckets_nonneg recs
  have hte : 0 ≤ (tier3Summary recs).totalExpenses :=
    add_nonneg (add_nonneg (add_nonneg (add_nonneg h2 h3) h4) h5) h6
  exact ⟨h1, h2, h3, h4, h5, h6, rfl, h1, hte, sub_le_self _ hte⟩

end OzonDash
